import Mathlib

/-!
Verification of the frontend capture-and-interaction engine
(`context-bridge/capture.py` and `context-bridge/models.py`).

The Python source is shallowly embedded: the pure extraction and scoring
logic is translated directly, and the effectful browser calls
(navigation, screenshots, live queries, timed waits) are abstracted into
explicit environments recording the outcome of each call — `none` or a
`false` flag standing for a raised exception, `some v` for a successful
call returning `v`.  Exceptions and `try`/`except`/`finally` control flow
are translated into the explicit branching the Python interpreter would
perform.  Wall-clock times are abstracted as naturals; `datetime`
timestamps carried by results are omitted, since no property depends on
them.
-/

set_option autoImplicit false

namespace ContextBridge

/-- Python truthiness of an `Optional[str]`: `None` and `""` are falsy. -/
def truthy : Option String → Bool
  | none => false
  | some s => s != ""

/-- Model of Python `str.upper()` (ASCII case mapping). -/
def pyUpper (s : String) : String :=
  String.mk (s.data.map Char.toUpper)

/-- Model of Python `str.strip()` / soup `get_text(strip=True)` trimming. -/
def pyStrip (s : String) : String :=
  String.mk (((s.data.dropWhile Char.isWhitespace).reverse.dropWhile
    Char.isWhitespace).reverse)

/-- Python `a or b` where `a` is a string and `b` an `Optional[str]`. -/
def pyOr (a : String) (b : Option String) : Option String :=
  if a != "" then some a else b

/-! ## Data model (`models.py`) -/

/-- `models.DOMElement`. -/
structure DOMElement where
  tag : String
  id : Option String := none
  classes : List String := []
  text : Option String := none
  attributes : List (String × String) := []
  children_count : Nat := 0
  xpath : Option String := none
  selector : Option String := none
  deriving Repr, DecidableEq

/-- `models.FormElement`. -/
structure FormElement where
  action : Option String := none
  method : String := "GET"
  inputs : List DOMElement := []
  submit_buttons : List DOMElement := []
  selector : Option String := none
  deriving Repr, DecidableEq

/-- `models.InteractiveElement`. -/
structure InteractiveElement where
  type : String
  text : Option String := none
  href : Option String := none
  selector : String
  clickable : Bool := false
  focusable : Bool := false
  visible : Bool := true
  deriving Repr, DecidableEq

/-- `models.PerformanceMetrics`; times abstracted as naturals. -/
structure PerformanceMetrics where
  load_time : Nat
  first_contentful_paint : Option Nat := none
  largest_contentful_paint : Option Nat := none
  dom_content_loaded : Option Nat := none
  errors : List String := []
  warnings : List String := []
  deriving Repr, DecidableEq

/-- One issue record produced by the in-page accessibility audit script. -/
structure A11yIssue where
  type : String
  severity : String
  description : String
  element : String
  deriving Repr, DecidableEq

/-- The dictionary returned by `_analyze_accessibility`. -/
structure A11yResult where
  issues : List A11yIssue
  score : Int
  deriving Repr, DecidableEq

/-- One breakpoint record produced by `_test_responsive`. -/
structure BreakpointResult where
  name : String
  width : Nat
  height : Nat
  has_horizontal_scroll : Bool
  deriving Repr, DecidableEq

/-- One issue record produced by `_test_responsive`. -/
structure ResponsiveIssueEntry where
  breakpoint : String
  issue : String
  description : String
  deriving Repr, DecidableEq

/-- The `responsive_data` dictionary built by `_test_responsive`. -/
structure ResponsiveData where
  breakpoints : List BreakpointResult := []
  issues : List ResponsiveIssueEntry := []
  deriving Repr, DecidableEq

/-- The `interactions` dictionary built by `_analyze_interactions`;
navigation links are `(text, href)` pairs. -/
structure InteractionsSummary where
  clickable_count : Nat := 0
  focusable_count : Nat := 0
  form_count : Nat := 0
  navigation_links : List (String × String) := []
  can_scroll : Bool := false
  deriving Repr, DecidableEq

/-- `models.InteractionResult` (timestamp omitted). -/
structure InteractionResult where
  action : String
  success : Bool
  error : Option String := none
  deriving Repr, DecidableEq

/-- `models.InteractionAction`; coordinates are an `(x, y)` pair. -/
structure InteractionAction where
  type : String
  selector : Option String := none
  value : Option String := none
  coordinates : Option (Int × Int) := none
  duration : Option Nat := none
  url : Option String := none
  deriving Repr, DecidableEq

/-- `models.FrontendContext` (timestamp omitted).  The dictionary-typed
fields `interactions`, `accessibility` and `responsive` default to the
empty dictionary in the source; here the unset dictionary is `none`. -/
structure FrontendContext where
  url : String
  title : String
  viewport : Nat × Nat
  screenshot : Option String := none
  elements : List DOMElement := []
  forms : List FormElement := []
  buttons : List DOMElement := []
  links : List DOMElement := []
  inputs : List DOMElement := []
  interactive : List InteractiveElement := []
  interactions : Option InteractionsSummary := none
  performance : Option PerformanceMetrics := none
  accessibility : Option A11yResult := none
  responsive : Option ResponsiveData := none
  raw_html : Option String := none
  console_logs : List String := []
  deriving Repr, DecidableEq

/-! ## Static markup model (BeautifulSoup view of the page)

`SNode` models one parsed element: its tag, attributes and text.  The
`class` attribute is kept in `classes` and excluded from `attrs`, matching
how `_extract_dom_elements` reads attributes.  `ok` models the per-element
`try`/`except`/`continue` in `_extract_dom_elements`: a node whose
`DOMElement` construction would raise is skipped. -/

structure SNode where
  tag : String
  id : Option String := none
  classes : List String := []
  text : String := ""
  attrs : List (String × String) := []
  descendants : Nat := 0
  ok : Bool := true
  deriving Repr, DecidableEq

/-- `element.get(key)` for string attributes other than `id`/`class`. -/
def SNode.get (n : SNode) (key : String) : Option String :=
  (n.attrs.find? (fun kv => kv.1 == key)).map (fun kv => kv.2)

/-- A parsed `<form>`: its own attributes plus descendant nodes. -/
structure FormNodeM where
  actionAttr : Option String := none
  methodAttr : Option String := none
  children : List SNode := []
  deriving Repr, DecidableEq

/-- The parsed document: all nodes in document order, plus forms. -/
structure Soup where
  nodes : List SNode := []
  formNodes : List FormNodeM := []
  html : String := ""
  deriving Repr, DecidableEq

/-- `soup.find_all(tag)`. -/
def Soup.findAll (s : Soup) (tag : String) : List SNode :=
  s.nodes.filter (fun n => n.tag == tag)

/-- `soup.find_all([t1, t2, ...])`. -/
def Soup.findAllTags (s : Soup) (tags : List String) : List SNode :=
  s.nodes.filter (fun n => tags.contains n.tag)

/-- The selector synthesized from a truthy `id`: `#<id>`. -/
def idSelector (id : Option String) : Option String :=
  match id with
  | some s => if s != "" then some ("#" ++ s) else none
  | none => none

/-! ## `_extract_dom_elements` -/

/-- The `important_tags` list of `_extract_dom_elements`. -/
def important_tags : List String :=
  ["h1", "h2", "h3", "h4", "h5", "h6", "p", "div", "span", "section",
   "article", "nav", "header", "footer", "main", "aside",
   "button", "input", "textarea", "select", "option", "label", "form",
   "a", "img", "video", "audio", "canvas", "svg",
   "ul", "ol", "li", "table", "thead", "tbody", "tr", "td", "th",
   "blockquote", "pre", "code", "strong", "em", "small", "mark", "del",
   "ins", "sub", "sup"]

/-- The `DOMElement` built for one node in `_extract_dom_elements`:
text stripped and truncated to 200 characters, `class` excluded from the
attribute map, selector preferring `#id`, else `tag.c1.c2` when classes
exist. -/
def buildDomElement (tag : String) (n : SNode) : DOMElement :=
  let stripped := pyStrip n.text
  { tag := tag
    id := n.id
    classes := n.classes
    text := if stripped != "" then some (stripped.take 200) else none
    attributes := n.attrs
    children_count := n.descendants
    selector :=
      if truthy n.id then idSelector n.id
      else if !n.classes.isEmpty then
        some (tag ++ "." ++ String.intercalate "." n.classes)
      else none }

/-- The inner `for element in soup.find_all(tag_name)` loop: append each
constructible element, `break` once 100 elements are accumulated (the
check runs after the append, so the outer loop over tags may push the
accumulator slightly past 100 before the final truncation). -/
def domInnerLoop (tag : String) : List SNode → List DOMElement → List DOMElement
  | [], acc => acc
  | n :: rest, acc =>
    if n.ok then
      let acc1 := acc ++ [buildDomElement tag n]
      if 100 ≤ acc1.length then acc1 else domInnerLoop tag rest acc1
    else domInnerLoop tag rest acc

/-- `_extract_dom_elements`: scan the important tags in order, then return
at most 100 elements (`elements[:100]`). -/
def _extract_dom_elements (soup : Soup) : List DOMElement :=
  (important_tags.foldl (fun acc tag => domInnerLoop tag (soup.findAll tag) acc)
    []).take 100

/-! ## `_extract_forms` -/

/-- The `DOMElement` built for one input of a form. -/
def buildFormInput (n : SNode) : DOMElement :=
  { tag := n.tag
    id := n.id
    attributes := n.attrs
    selector := idSelector n.id }

/-- The `DOMElement` built for one submit control of a form. -/
def buildSubmitButton (n : SNode) : DOMElement :=
  { tag := n.tag
    text := pyOr (pyStrip n.text) (n.get "value")
    attributes := n.attrs }

/-- The `FormElement` built for one `<form>` node: method defaults to
`"GET"` when the attribute is absent and is always upper-cased. -/
def buildForm (f : FormNodeM) : FormElement :=
  { action := f.actionAttr
    method := pyUpper (f.methodAttr.getD "GET")
    inputs :=
      (f.children.filter (fun n =>
        ["input", "textarea", "select"].contains n.tag)).map buildFormInput
    submit_buttons :=
      ((f.children.filter (fun n => ["button", "input"].contains n.tag)).filter
        (fun b => b.get "type" == some "submit" || b.get "type" == some "button"
          || b.tag == "button")).map buildSubmitButton }

/-- `_extract_forms`. -/
def _extract_forms (soup : Soup) : List FormElement :=
  soup.formNodes.map buildForm

/-! ## `_extract_buttons`, `_extract_links`, `_extract_inputs` -/

/-- The `DOMElement` built for one button in `_extract_buttons`. -/
def buildButton (n : SNode) : DOMElement :=
  { tag := n.tag
    id := n.id
    classes := n.classes
    text := pyOr (pyStrip n.text) (n.get "value")
    attributes := n.attrs
    selector := idSelector n.id }

/-- `_extract_buttons`: `<button>` plus `<input>` whose type is `button`
or `submit`, capped at 20. -/
def _extract_buttons (soup : Soup) : List DOMElement :=
  (((soup.findAllTags ["button", "input"]).filter (fun n =>
      !(n.tag == "input") || n.get "type" == some "button"
        || n.get "type" == some "submit")).map buildButton).take 20

/-- The `DOMElement` built for one link in `_extract_links`. -/
def buildLink (n : SNode) : DOMElement :=
  { tag := "a"
    id := n.id
    classes := n.classes
    text := some (pyStrip n.text)
    attributes := [("href", (n.get "href").getD "")]
    selector := idSelector n.id }

/-- `_extract_links`: `<a>` with a present `href`, capped at 30. -/
def _extract_links (soup : Soup) : List DOMElement :=
  ((soup.nodes.filter (fun n =>
    n.tag == "a" && (n.get "href").isSome)).map buildLink).take 30

/-- `_extract_inputs`: `input`/`textarea`/`select`, uncapped. -/
def _extract_inputs (soup : Soup) : List DOMElement :=
  (soup.findAllTags ["input", "textarea", "select"]).map (fun n =>
    { tag := n.tag
      id := n.id
      classes := n.classes
      attributes := n.attrs
      selector := idSelector n.id })

/-! ## `_extract_interactive_elements` (live page queries) -/

/-- One live element handle: the outcome of `text_content()` and
`is_visible()`; `probeOk = false` models those calls raising, which the
per-element `except: continue` absorbs. -/
structure LiveElem where
  textContent : Option String := none
  visibleB : Bool := true
  probeOk : Bool := true
  deriving Repr, DecidableEq

/-- The live page as seen through `query_selector_all`: the matches per
selector, and whether the query itself raises (absorbed per selector). -/
structure LivePage where
  query : String → List LiveElem := fun _ => []
  queryOk : String → Bool := fun _ => true

/-- The fixed `clickable_selectors` list. -/
def clickable_selectors : List String :=
  ["button", "a[href]", "input[type=\"button\"]", "input[type=\"submit\"]",
   "[onclick]", "[role=\"button\"]"]

/-- The contribution of one selector: at most 10 matches
(`elements[:10]`), each probed for text and visibility, failures
skipped. -/
def interactiveForSelector (lp : LivePage) (sel : String) : List InteractiveElement :=
  if lp.queryOk sel then
    ((lp.query sel).take 10).filterMap (fun e =>
      if e.probeOk then
        some { type := "clickable"
               text := match e.textContent with
                 | some t => if t != "" then some (pyStrip t) else none
                 | none => none
               selector := sel
               clickable := true
               visible := e.visibleB }
      else none)
  else []

/-- `_extract_interactive_elements`: accumulate per-selector
contributions in order, then cap the total at 30. -/
def _extract_interactive_elements (lp : LivePage) : List InteractiveElement :=
  (clickable_selectors.foldl
    (fun acc sel => acc ++ interactiveForSelector lp sel) []).take 30

/-! ## `_analyze_accessibility` -/

/-- One `<img>` as the audit script sees it: `img.alt` is `""` when the
attribute is absent, `getAttribute('aria-label')` is modelled with `""`
for both `null` and the empty string (both falsy in the script). -/
structure ImgM where
  alt : String := ""
  ariaLabel : String := ""
  deriving Repr, DecidableEq

/-- One form control as the audit script sees it: lower-cased tag name,
`id` (`""` when absent), whether a `label[for=id]` exists, aria-label. -/
structure InputM where
  tagName : String := "input"
  id : String := ""
  hasLabelFor : Bool := false
  ariaLabel : String := ""
  deriving Repr, DecidableEq

/-- The live document as the audit script sees it. -/
structure A11yPage where
  imgs : List ImgM := []
  formControls : List InputM := []
  headings : List Nat := []
  deriving Repr, DecidableEq

/-- Images lacking both alt text and aria-label. -/
def imgIssues (imgs : List ImgM) : List A11yIssue :=
  imgs.enum.filterMap (fun p =>
    if p.2.alt == "" && p.2.ariaLabel == "" then
      some { type := "missing_alt_text"
             severity := "medium"
             description := "Image missing alternative text"
             element := "img:nth-child(" ++ toString (p.1 + 1) ++ ")" }
    else none)

/-- Form controls lacking both an associated label and an aria-label. -/
def inputIssues (controls : List InputM) : List A11yIssue :=
  controls.enum.filterMap (fun p =>
    let hasLabel := p.2.id != "" && p.2.hasLabelFor
    if !hasLabel && p.2.ariaLabel == "" then
      some { type := "missing_form_label"
             severity := "high"
             description := "Form input missing label"
             element := p.2.tagName ++
               (if p.2.id != "" then "#" ++ p.2.id
                else ":nth-child(" ++ toString (p.1 + 1) ++ ")") }
    else none)

/-- Heading level skips, tracked via the running last-seen level. -/
def headingIssues : List Nat → Nat → List A11yIssue
  | [], _ => []
  | l :: rest, lastLevel =>
    (if lastLevel + 1 < l then
      [{ type := "heading_hierarchy"
         severity := "medium"
         description := "Improper heading hierarchy"
         element := "h" ++ toString l }]
     else []) ++ headingIssues rest l

/-- The audit script's successful result:
`score = max(0, 100 - issues.length * 10)`. -/
def auditPage (p : A11yPage) : A11yResult :=
  let issues := imgIssues p.imgs ++ inputIssues p.formControls ++
    headingIssues p.headings 0
  { issues := issues
    score := max 0 (100 - (issues.length : Int) * 10) }

/-- `_analyze_accessibility`: `none` models `page.evaluate` raising, which
is caught and mapped to `{"issues": [], "score": 0}`. -/
def _analyze_accessibility : Option A11yPage → A11yResult
  | some p => auditPage p
  | none => { issues := [], score := 0 }

/-! ## `_analyze_performance` -/

/-- `_analyze_performance`: the second argument is the outcome of the
timing `page.evaluate` — `none` when it raises (caught, yielding a record
with only `load_time`), `some (dcl, fcp)` on success. -/
def _analyze_performance (loadTime : Nat) :
    Option (Option Nat × Option Nat) → PerformanceMetrics
  | some d =>
    { load_time := loadTime
      dom_content_loaded := d.1
      first_contentful_paint := d.2
      errors := []
      warnings := [] }
  | none => { load_time := loadTime, errors := [], warnings := [] }

/-! ## `_test_responsive` -/

/-- The fixed breakpoint list: name, width, height. -/
def breakpointsList : List (String × Nat × Nat) :=
  [("mobile", 375, 667), ("tablet", 768, 1024), ("desktop", 1280, 720)]

/-- The per-breakpoint sweep; `probe bp = none` models a browser call
raising inside that iteration, which the surrounding `try` catches,
keeping whatever was accumulated so far. -/
def respSweep (probe : String → Option Bool) :
    List (String × Nat × Nat) → ResponsiveData → ResponsiveData
  | [], acc => acc
  | bp :: rest, acc =>
    match probe bp.1 with
    | none => acc
    | some overflow =>
      respSweep probe rest
        { breakpoints := acc.breakpoints ++
            [{ name := bp.1
               width := bp.2.1
               height := bp.2.2
               has_horizontal_scroll := overflow }]
          issues :=
            if overflow then acc.issues ++
              [{ breakpoint := bp.1
                 issue := "horizontal_overflow"
                 description := "Page has horizontal overflow at " ++ bp.1 ++
                   " viewport" }]
            else acc.issues }

/-- `_test_responsive`. -/
def _test_responsive (probe : String → Option Bool) : ResponsiveData :=
  respSweep probe breakpointsList {}

/-! ## `_analyze_interactions` -/

/-- Probe of one navigation link: outcomes of `get_attribute('href')` and
`text_content()`; `ok = false` models a raise absorbed by `continue`. -/
structure NavLinkProbe where
  href : Option String := none
  text : Option String := none
  ok : Bool := true
  deriving Repr, DecidableEq

/-- Outcomes of the browser calls in `_analyze_interactions`, in program
order; `none` models that call raising, which aborts the rest of the
`try` body while keeping the counters already assigned. -/
structure SummaryEnv where
  clickableQ : Option Nat := some 0
  focusableQ : Option Nat := some 0
  scrollHeight : Option Nat := some 0
  clientHeight : Option Nat := some 0
  navQ : Option (List NavLinkProbe) := some []

/-- The navigation-link entries: first 10 matches, truthy href and text
required, text stripped. -/
def navLinkEntries (links : List NavLinkProbe) : List (String × String) :=
  (links.take 10).filterMap (fun l =>
    if l.ok then
      match l.href, l.text with
      | some h, some t => if h != "" && t != "" then some (pyStrip t, h) else none
      | _, _ => none
    else none)

/-- `_analyze_interactions`: the summary starts from zero counters with
`form_count = len(context.forms)` (assigned before the `try`), then each
counter is filled in until the first raising call. -/
def _analyze_interactions (env : SummaryEnv) (formCount : Nat) : InteractionsSummary :=
  let s0 : InteractionsSummary := { form_count := formCount }
  match env.clickableQ with
  | none => s0
  | some c =>
    let s1 := { s0 with clickable_count := c }
    match env.focusableQ with
    | none => s1
    | some f =>
      let s2 := { s1 with focusable_count := f }
      match env.scrollHeight with
      | none => s2
      | some sh =>
        match env.clientHeight with
        | none => s2
        | some ch =>
          let s3 := { s2 with can_scroll := decide (ch < sh) }
          match env.navQ with
          | none => s3
          | some links => { s3 with navigation_links := navLinkEntries links }

/-! ## `capture_frontend` -/

/-- The recognized option flags with their `options.get(..., default)`
defaults (also the default dictionary used when `options is None`). -/
structure CaptureOptions where
  screenshot : Bool := true
  dom_analysis : Bool := true
  performance : Bool := true
  accessibility : Bool := true
  responsive : Bool := false
  console_logs : Bool := true
  deriving Repr, DecidableEq

/-- Outcomes of the browser calls made during one capture.  `soup` is the
parsed document when `page.content()` succeeds; `screenshotData` is the
encoded screenshot when `page.screenshot()` succeeds; `basicInfoOk`
covers `page.title()` / `page.viewport_size` right after navigation. -/
structure CaptureEnv where
  newPageOk : Bool := true
  setViewportOk : Bool := true
  navOk : Bool := true
  basicInfoOk : Bool := true
  loadTime : Nat := 0
  finalUrl : String := ""
  pageTitle : String := ""
  consoleLogs : List String := []
  screenshotData : Option String := none
  soup : Option Soup := none
  live : LivePage := {}
  perf : Option (Option Nat × Option Nat) := none
  a11y : Option A11yPage := none
  respProbe : String → Option Bool := fun _ => none
  summary : SummaryEnv := {}

/-- `_capture_screenshot`: the base64 string on success, `""` when
`page.screenshot()` raises (caught inside the helper). -/
def _capture_screenshot (env : CaptureEnv) : String :=
  match env.screenshotData with
  | some data => data
  | none => ""

/-- `_analyze_dom`: when `page.content()` raises, the surrounding `try`
absorbs it and no field is assigned; otherwise `raw_html` and the six
collections are populated (each sub-extractor absorbs its own errors). -/
def _analyze_dom (env : CaptureEnv) (ctx : FrontendContext) : FrontendContext :=
  match env.soup with
  | none => ctx
  | some s =>
    { ctx with
      raw_html := some s.html
      elements := _extract_dom_elements s
      forms := _extract_forms s
      buttons := _extract_buttons s
      links := _extract_links s
      inputs := _extract_inputs s
      interactive := _extract_interactive_elements env.live }

/-- The stage pipeline of `capture_frontend` after a successful
navigation, in source order: screenshot → DOM analysis → performance →
accessibility → responsive → interaction summary (unconditional). -/
def captureBody (env : CaptureEnv) (opts : CaptureOptions)
    (vp : Option (Nat × Nat)) : FrontendContext :=
  let ctx0 : FrontendContext :=
    { url := env.finalUrl
      title := env.pageTitle
      viewport := vp.getD (1280, 720)
      console_logs := env.consoleLogs }
  let c1 := if opts.screenshot then
    { ctx0 with screenshot := some (_capture_screenshot env) } else ctx0
  let c2 := if opts.dom_analysis then _analyze_dom env c1 else c1
  let c3 := if opts.performance then
    { c2 with performance := some (_analyze_performance env.loadTime env.perf) }
    else c2
  let c4 := if opts.accessibility then
    { c3 with accessibility := some (_analyze_accessibility env.a11y) } else c3
  let c5 := if opts.responsive then
    { c4 with responsive := some (_test_responsive env.respProbe) } else c4
  { c5 with interactions := some (_analyze_interactions env.summary c5.forms.length) }

/-- What happened to the page opened for one request. -/
structure PageFate where
  opened : Bool
  closed : Bool
  result : Except String FrontendContext
  deriving Repr

/-- `capture_frontend` with its page lifecycle.  `new_page()` and the
conditional `set_viewport_size` run before the `try`/`finally`, so an
exception in `set_viewport_size` propagates without the page being
closed; everything from the `try` on is covered by the `finally`. -/
def capture_frontend (env : CaptureEnv) (opts : CaptureOptions)
    (vp : Option (Nat × Nat)) : PageFate :=
  if !env.newPageOk then
    { opened := false, closed := false, result := .error "new_page failed" }
  else if vp.isSome && !env.setViewportOk then
    { opened := true, closed := false, result := .error "set_viewport_size failed" }
  else if !env.navOk then
    { opened := true, closed := true, result := .error "navigation failed" }
  else if !env.basicInfoOk then
    { opened := true, closed := true, result := .error "page info failed" }
  else
    { opened := true, closed := true, result := .ok (captureBody env opts vp) }

/-! ## `cleanup` -/

/-- Which of `self.context` / `self.browser` / `self.playwright` are set. -/
structure SessionState where
  hasContext : Bool := true
  hasBrowser : Bool := true
  hasPlaywright : Bool := true
  deriving Repr, DecidableEq

/-- Whether each close call would succeed if attempted. -/
structure CleanupEnv where
  ctxCloseOk : Bool := true
  browserCloseOk : Bool := true
  stopOk : Bool := true
  deriving Repr, DecidableEq

/-- Which close calls completed, and whether `cleanup` re-raised. -/
structure CleanupTrace where
  contextClosed : Bool
  browserClosed : Bool
  playwrightStopped : Bool
  raised : Bool
  deriving Repr, DecidableEq

/-- `cleanup`: a single `try` wraps all three guarded close steps, so the
first step that raises jumps to the `except` (which only logs), skipping
the remaining steps; unset components are skipped by the `if` guards. -/
def cleanup (s : SessionState) (env : CleanupEnv) : CleanupTrace :=
  if s.hasContext && !env.ctxCloseOk then
    { contextClosed := false, browserClosed := false
      playwrightStopped := false, raised := false }
  else if s.hasBrowser && !env.browserCloseOk then
    { contextClosed := s.hasContext, browserClosed := false
      playwrightStopped := false, raised := false }
  else if s.hasPlaywright && !env.stopOk then
    { contextClosed := s.hasContext, browserClosed := s.hasBrowser
      playwrightStopped := false, raised := false }
  else
    { contextClosed := s.hasContext, browserClosed := s.hasBrowser
      playwrightStopped := s.hasPlaywright, raised := false }

/-! ## `interact_with_page` -/

/-- Python truthiness of the optional coordinates dictionary. -/
def truthyCoords : Option (Int × Int) → Bool
  | none => false
  | some _ => true

/-- `action.duration or 1000`: the wait length used by a `wait` action
(Python `or` treats `0` as falsy). -/
def waitDuration (a : InteractionAction) : Nat :=
  match a.duration with
  | some d => if d != 0 then d else 1000
  | none => 1000

/-- Outcomes of the browser calls made during one interaction session.
`op i` is the outcome of the single browser primitive executed by the
`i`-th action (`none` = success, `some e` = exception message, caught by
the per-action `except`); `delay i` is the outcome of the 500ms
`wait_for_timeout` after the `i`-th action, which runs outside the
per-action `try`. -/
structure InteractEnv where
  newPageOk : Bool := true
  navOk : Bool := true
  op : Nat → Option String := fun _ => none
  delay : Nat → Option String := fun _ => none

/-- The per-action dispatch of `interact_with_page` (source lines
582-616), including the per-action `try`/`except`.  Note the source sets
`result.success = True` for a `click` even when neither selector nor
coordinates is given (the assignment sits outside the inner branch). -/
def runAction (env : InteractEnv) (i : Nat) (a : InteractionAction) :
    InteractionResult :=
  let base : InteractionResult := { action := a.type, success := false }
  if a.type == "click" then
    if truthy a.selector then
      match env.op i with
      | none => { base with success := true }
      | some e => { base with error := some e }
    else if truthyCoords a.coordinates then
      match env.op i with
      | none => { base with success := true }
      | some e => { base with error := some e }
    else { base with success := true }
  else if a.type == "fill" then
    if truthy a.selector && truthy a.value then
      match env.op i with
      | none => { base with success := true }
      | some e => { base with error := some e }
    else base
  else if a.type == "wait" then
    match env.op i with
    | none => { base with success := true }
    | some e => { base with error := some e }
  else if a.type == "scroll" then
    match env.op i with
    | none => { base with success := true }
    | some e => { base with error := some e }
  else if a.type == "navigate" then
    if truthy a.url then
      match env.op i with
      | none => { base with success := true }
      | some e => { base with error := some e }
    else base
  else
    { base with error := some ("Unknown action type: " ++ a.type) }

/-- The `for action in actions` loop: each result is appended, then the
500ms inter-action wait runs; if that wait raises, the outer `except`
catches it and the results accumulated so far are returned. -/
def interactLoop (env : InteractEnv) : Nat → List InteractionAction →
    List InteractionResult
  | _, [] => []
  | i, a :: rest =>
    let r := runAction env i a
    match env.delay i with
    | none => r :: interactLoop env (i + 1) rest
    | some _ => [r]

/-- `interact_with_page` after the page has been obtained: a navigation
failure is caught by the outer `except`, which returns the (empty)
results list. -/
def interact_with_page (env : InteractEnv) (_url : String)
    (actions : List InteractionAction) : List InteractionResult :=
  if env.navOk then interactLoop env 0 actions else []

/-- What happened to one interaction session's page and results.  Unlike
`capture_frontend`, here nothing runs between `new_page()` and the
`try`, so the `finally` covers every path on which a page exists. -/
structure InteractFate where
  opened : Bool
  closed : Bool
  results : List InteractionResult
  deriving Repr, DecidableEq

/-- `interact_with_page` with its page lifecycle. -/
def interact_with_page_fate (env : InteractEnv) (url : String)
    (actions : List InteractionAction) : InteractFate :=
  if env.newPageOk then
    { opened := true, closed := true
      results := interact_with_page env url actions }
  else { opened := false, closed := false, results := [] }

/-! ## General helper lemmas -/

theorem mem_foldl_append {α β : Type} (g : β → List α) :
    ∀ (l : List β) (acc : List α) (a : α),
      a ∈ l.foldl (fun acc b => acc ++ g b) acc →
      a ∈ acc ∨ ∃ b ∈ l, a ∈ g b := by
  intro l
  induction l with
  | nil => exact fun acc a h => Or.inl h
  | cons b bs ih =>
    intro acc a h
    rcases ih (acc ++ g b) a h with h1 | ⟨c, hc, hg⟩
    · rcases List.mem_append.1 h1 with h2 | h2
      · exact Or.inl h2
      · exact Or.inr ⟨b, List.mem_cons_self b bs, h2⟩
    · exact Or.inr ⟨c, List.mem_cons_of_mem b hc, hg⟩

theorem runAction_action (env : InteractEnv) (i : Nat) (a : InteractionAction) :
    (runAction env i a).action = a.type := by
  unfold runAction
  cases env.op i <;> split_ifs <;> rfl

/-! ## Claim C4 -/

/-- Claim C4 (counterexample): the audit result produced on a
rule-evaluation failure has an empty issue list but score 0, which
violates `score == max(0, 100 - 10*len(issues))` (that formula gives
100). -/
theorem accessibility_score_failure_counterexample :
    ¬ ((_analyze_accessibility none).score =
      max 0 (100 - ((_analyze_accessibility none).issues.length : Int) * 10)) := by
  decide

/-- Claim C4 (amended): every audit result produced from a successfully
evaluated page satisfies `score == max(0, 100 - 10*len(issues))`; a
rule-evaluation failure instead yields the fixed result of an empty
issue list with score 0, which does not satisfy that formula. -/
theorem accessibility_score_invariant (p : A11yPage) :
    (_analyze_accessibility (some p)).score =
      max 0 (100 - ((_analyze_accessibility (some p)).issues.length : Int) * 10) ∧
    _analyze_accessibility none = { issues := [], score := 0 } :=
  ⟨rfl, rfl⟩

/-! ## Claim C6 -/

/-- Claim C6 (counterexample): with all three components present and a
working browser close and driver stop, a failure while closing the
browsing context leaves both the browser and the driver running —
the failure is tolerated (nothing is raised) but it does prevent the
remaining close steps. -/
theorem cleanup_skips_remaining_counterexample :
    (cleanup {} { ctxCloseOk := false }).browserClosed = false ∧
    (cleanup {} { ctxCloseOk := false }).playwrightStopped = false ∧
    (cleanup {} { ctxCloseOk := false }).raised = false := by
  decide

/-- Claim C6 (amended): `cleanup()` attempts to close the browsing
context, then the browser, then the driver, in that order, skipping
components that were never initialized, and never propagates a failure;
when every attempted step succeeds, all present components are closed,
but the first step that fails skips all remaining close steps. -/
theorem cleanup_order_and_tolerance (s : SessionState) (env : CleanupEnv) :
    (cleanup s env).raised = false ∧
    ((env.ctxCloseOk = true ∧ env.browserCloseOk = true ∧ env.stopOk = true) →
      (cleanup s env).contextClosed = s.hasContext ∧
      (cleanup s env).browserClosed = s.hasBrowser ∧
      (cleanup s env).playwrightStopped = s.hasPlaywright) ∧
    ((s.hasContext = true ∧ env.ctxCloseOk = false) →
      (cleanup s env).browserClosed = false ∧
      (cleanup s env).playwrightStopped = false) ∧
    ((s.hasBrowser = true ∧ env.browserCloseOk = false) →
      (cleanup s env).playwrightStopped = false) := by
  rcases s with ⟨hc, hb, hp⟩
  rcases env with ⟨c1, c2, c3⟩
  cases hc <;> cases hb <;> cases hp <;> cases c1 <;> cases c2 <;> cases c3 <;>
    decide

/-- Witness for the amended C6 theorem at a fully initialized session
whose context close fails. -/
theorem cleanup_order_and_tolerance_witness :
    (cleanup {} { ctxCloseOk := false }).browserClosed = false ∧
    (cleanup {} { ctxCloseOk := false }).playwrightStopped = false :=
  (cleanup_order_and_tolerance {} { ctxCloseOk := false }).2.2.1 ⟨rfl, rfl⟩

/-! ## Claim C7 -/

/-- Claim C7: every extracted form's method comes from the form node at
the same position; an absent `method` attribute yields `"GET"`, and a
present attribute value of any letter case yields its upper-cased
form. -/
theorem form_method_normalization (s : Soup) (i : Nat)
    (hi : i < s.formNodes.length) (hj : i < (_extract_forms s).length) :
    ((s.formNodes.get ⟨i, hi⟩).methodAttr = none →
      ((_extract_forms s).get ⟨i, hj⟩).method = "GET") ∧
    (∀ m, (s.formNodes.get ⟨i, hi⟩).methodAttr = some m →
      ((_extract_forms s).get ⟨i, hj⟩).method = pyUpper m) := by
  have hget : (_extract_forms s).get ⟨i, hj⟩ =
      buildForm (s.formNodes.get ⟨i, hi⟩) := by
    simp [_extract_forms]
  constructor
  · intro h
    rw [hget]
    show pyUpper (((s.formNodes.get ⟨i, hi⟩).methodAttr).getD "GET") = "GET"
    rw [h]
    decide
  · intro m h
    rw [hget]
    show pyUpper (((s.formNodes.get ⟨i, hi⟩).methodAttr).getD "GET") = pyUpper m
    rw [h]
    rfl

/-- Witness for C7 at a document with two forms: one without a `method`
attribute and one with `method="post"`. -/
theorem form_method_normalization_witness :
    ((_extract_forms { formNodes := [{ methodAttr := none },
        { methodAttr := some "post" }] }).get ⟨0, by decide⟩).method = "GET" ∧
    ((_extract_forms { formNodes := [{ methodAttr := none },
        { methodAttr := some "post" }] }).get ⟨1, by decide⟩).method = "POST" := by
  constructor
  · exact (form_method_normalization
      { formNodes := [{ methodAttr := none }, { methodAttr := some "post" }] }
      0 (by decide) (by decide)).1 rfl
  · have h := (form_method_normalization
      { formNodes := [{ methodAttr := none }, { methodAttr := some "post" }] }
      1 (by decide) (by decide)).2 "post" rfl
    exact h.trans (by decide)

/-! ## Claim C9 -/

/-- Claim C9 (code bug): evaluating the engine on a `click` action that
carries neither a selector nor coordinates shows that no exception
escapes and the subsequent action still executes — but the click's
result has `success = true`, not the specified `success = false`,
because the source assigns `result.success = True` outside the
selector/coordinates branch. -/
theorem click_no_target_reports_success :
    interact_with_page {} "http://example.com"
      [{ type := "click" }, { type := "wait" }] =
      [{ action := "click", success := true },
       { action := "wait", success := true }] := by
  decide

/-! ## Claim C10 -/

theorem mem_interactiveForSelector (lp : LivePage) (sel : String)
    (e : InteractiveElement) (h : e ∈ interactiveForSelector lp sel) :
    e.type = "clickable" ∧ e.clickable = true ∧ e.focusable = false ∧
      e.selector = sel := by
  unfold interactiveForSelector at h
  cases hq : lp.queryOk sel
  · simp [hq] at h
  · rw [hq] at h
    simp only [if_true] at h
    rcases List.mem_filterMap.1 h with ⟨le, _, hfe⟩
    cases hp : le.probeOk
    · rw [hp] at hfe
      simp at hfe
    · rw [hp] at hfe
      simp only [if_true] at hfe
      rw [← Option.some_inj.1 hfe]
      simp

/-- Claim C10: every interactive element produced by the live extraction
has `type = "clickable"`, `clickable = true`, `focusable = false`
(the field is never set), and its selector is one of the six generic
clickable query patterns rather than an element-specific selector. -/
theorem interactive_element_invariants (lp : LivePage) (e : InteractiveElement)
    (he : e ∈ _extract_interactive_elements lp) :
    e.type = "clickable" ∧ e.clickable = true ∧ e.focusable = false ∧
      e.selector ∈ clickable_selectors := by
  unfold _extract_interactive_elements at he
  have he2 := List.mem_of_mem_take he
  rcases mem_foldl_append (interactiveForSelector lp) clickable_selectors [] e he2 with
    h0 | ⟨sel, hsel, hmem⟩
  · simp at h0
  · obtain ⟨h1, h2, h3, h4⟩ := mem_interactiveForSelector lp sel e hmem
    exact ⟨h1, h2, h3, h4 ▸ hsel⟩

/-- Witness for C10 at a live page whose `button` query returns one
element. -/
theorem interactive_element_invariants_witness :
    ({ type := "clickable", text := some "Go", selector := "button",
       clickable := true, focusable := false, visible := true } :
       InteractiveElement).type = "clickable" ∧
    ({ type := "clickable", text := some "Go", selector := "button",
       clickable := true, focusable := false, visible := true } :
       InteractiveElement).clickable = true ∧
    ({ type := "clickable", text := some "Go", selector := "button",
       clickable := true, focusable := false, visible := true } :
       InteractiveElement).focusable = false ∧
    ({ type := "clickable", text := some "Go", selector := "button",
       clickable := true, focusable := false, visible := true } :
       InteractiveElement).selector ∈ clickable_selectors :=
  interactive_element_invariants
    { query := fun sel => if sel == "button" then [{ textContent := some "Go" }] else [] }
    _ (by decide)

/-! ## Claim C1 -/

theorem interactLoop_map_action (env : InteractEnv) :
    ∀ (acts : List InteractionAction) (k : Nat),
      (∀ i, i < acts.length → env.delay (k + i) = none) →
      (interactLoop env k acts).map (fun r => r.action) =
        acts.map (fun a => a.type) := by
  intro acts
  induction acts with
  | nil => intro k _; rfl
  | cons a rest ih =>
    intro k hd
    have h0 : env.delay k = none := by
      have h := hd 0 (by simp)
      simpa using h
    have h2 := ih (k + 1) (fun i hi => by
      have h := hd (i + 1) (by simpa using Nat.succ_lt_succ hi)
      rwa [show k + (i + 1) = k + 1 + i by omega] at h)
    simp only [interactLoop, h0, List.map_cons]
    rw [runAction_action env k a, h2]

/-- Claim C1 (counterexample): when the initial navigation fails, the
outer exception handler returns the results accumulated so far — the
empty list — so a one-action call returns zero results, not one result
per input action. -/
theorem interact_nav_failure_counterexample :
    interact_with_page { navOk := false } "http://a" [{ type := "wait" }] = [] ∧
    ¬ ((interact_with_page { navOk := false } "http://a"
        [{ type := "wait" }]).length =
      ([{ type := "wait" }] : List InteractionAction).length) := by
  constructor
  · rfl
  · decide

/-- Claim C1 (amended): when the initial navigation succeeds and no
inter-action delay raises, `interact_with_page` returns exactly one
result per input action, in input order, with `results[i].action`
equal to `actions[i].type` — regardless of individual action failures.
When navigation fails the returned list is empty instead. -/
theorem interact_results_match_actions (env : InteractEnv) (url : String)
    (actions : List InteractionAction) (hnav : env.navOk = true)
    (hdelay : ∀ i, i < actions.length → env.delay i = none) :
    (interact_with_page env url actions).map (fun r => r.action) =
      actions.map (fun a => a.type) := by
  unfold interact_with_page
  rw [hnav]
  simp only [if_true]
  exact interactLoop_map_action env actions 0 (fun i hi => by
    simpa using hdelay i hi)

/-- Witness for the amended C1 theorem: two actions (one of unknown
type, which fails) yield two results with matching action types. -/
theorem interact_results_match_actions_witness :
    (interact_with_page {} "http://a"
      [{ type := "fill" }, { type := "zoom" }]).map (fun r => r.action) =
      ["fill", "zoom"] := by
  have h := interact_results_match_actions {} "http://a"
    [{ type := "fill" }, { type := "zoom" }] rfl (fun i _ => rfl)
  exact h.trans (by decide)

/-! ## Claim C8 -/

/-- Claim C8 (counterexample): a fill action carrying both a selector
and a value still yields `success = false` when the underlying
`page.fill` call raises (here, a timeout because the selector matches
nothing): the claim's unconditional `success = true` does not hold. -/
theorem fill_success_counterexample :
    interact_with_page { op := fun _ => some "Timeout 5000ms exceeded" }
      "http://a"
      [{ type := "fill", selector := some "#name", value := some "Bob" }] =
      [{ action := "fill", success := false,
         error := some "Timeout 5000ms exceeded" }] := by
  decide

/-- Claim C8 (amended): a fill action whose selector and value are both
present and non-empty attempts the fill and reports `success = true`
exactly when the underlying fill call raises no exception (a raised
exception is recorded in `error` with `success = false`); a fill action
whose selector or value is missing — or empty, since the source tests
Python truthiness — yields `success = false` without attempting the
fill. -/
theorem fill_action_semantics (env : InteractEnv) (i : Nat)
    (a : InteractionAction) (ht : a.type = "fill") :
    (truthy a.selector = true → truthy a.value = true →
      ((env.op i = none →
        runAction env i a = { action := "fill", success := true }) ∧
       (∀ e, env.op i = some e →
        runAction env i a =
          { action := "fill", success := false, error := some e }))) ∧
    ((truthy a.selector = false ∨ truthy a.value = false) →
      runAction env i a = { action := "fill", success := false }) := by
  constructor
  · intro hs hv
    constructor
    · intro hop
      simp [runAction, ht, hs, hv, hop]
    · intro e hop
      simp [runAction, ht, hs, hv, hop]
  · intro hcase
    rcases hcase with hs | hv
    · simp [runAction, ht, hs]
    · simp [runAction, ht, hv]

/-- Witness for the amended C8 theorem: a fill with selector `#q` and
value `v` whose underlying call succeeds reports success. -/
theorem fill_action_semantics_witness :
    runAction {} 0 { type := "fill", selector := some "#q", value := some "v" } =
      { action := "fill", success := true } :=
  ((fill_action_semantics {} 0
    { type := "fill", selector := some "#q", value := some "v" } rfl).1
    rfl rfl).1 rfl

/-! ## Capture pipeline helper lemmas -/

theorem captureBody_fields (env : CaptureEnv) (opts : CaptureOptions)
    (vp : Option (Nat × Nat)) :
    (captureBody env opts vp).screenshot =
      (if opts.screenshot then some (_capture_screenshot env) else none) ∧
    (captureBody env opts vp).elements =
      (if opts.dom_analysis then
        (match env.soup with
         | some s => _extract_dom_elements s
         | none => []) else []) ∧
    (captureBody env opts vp).forms =
      (if opts.dom_analysis then
        (match env.soup with
         | some s => _extract_forms s
         | none => []) else []) ∧
    (captureBody env opts vp).buttons =
      (if opts.dom_analysis then
        (match env.soup with
         | some s => _extract_buttons s
         | none => []) else []) ∧
    (captureBody env opts vp).links =
      (if opts.dom_analysis then
        (match env.soup with
         | some s => _extract_links s
         | none => []) else []) ∧
    (captureBody env opts vp).inputs =
      (if opts.dom_analysis then
        (match env.soup with
         | some s => _extract_inputs s
         | none => []) else []) ∧
    (captureBody env opts vp).interactive =
      (if opts.dom_analysis then
        (match env.soup with
         | some _ => _extract_interactive_elements env.live
         | none => []) else []) ∧
    (captureBody env opts vp).raw_html =
      (if opts.dom_analysis then
        (match env.soup with
         | some s => some s.html
         | none => none) else none) ∧
    (captureBody env opts vp).performance =
      (if opts.performance then
        some (_analyze_performance env.loadTime env.perf) else none) ∧
    (captureBody env opts vp).accessibility =
      (if opts.accessibility then some (_analyze_accessibility env.a11y)
       else none) ∧
    (captureBody env opts vp).responsive =
      (if opts.responsive then some (_test_responsive env.respProbe)
       else none) ∧
    (captureBody env opts vp).interactions.isSome = true := by
  obtain ⟨o1, o2, o3, o4, o5, o6⟩ := opts
  cases hs : env.soup <;> cases o1 <;> cases o2 <;> cases o3 <;> cases o4 <;>
    cases o5 <;> simp [captureBody, _analyze_dom, hs]

theorem _extract_dom_elements_le (s : Soup) :
    (_extract_dom_elements s).length ≤ 100 := by
  unfold _extract_dom_elements
  rw [List.length_take]
  exact Nat.min_le_left _ _

theorem _extract_buttons_le (s : Soup) : (_extract_buttons s).length ≤ 20 := by
  unfold _extract_buttons
  rw [List.length_take]
  exact Nat.min_le_left _ _

theorem _extract_links_le (s : Soup) : (_extract_links s).length ≤ 30 := by
  unfold _extract_links
  rw [List.length_take]
  exact Nat.min_le_left _ _

theorem _extract_interactive_elements_le (lp : LivePage) :
    (_extract_interactive_elements lp).length ≤ 30 := by
  unfold _extract_interactive_elements
  rw [List.length_take]
  exact Nat.min_le_left _ _

theorem interactiveForSelector_le (lp : LivePage) (sel : String) :
    (interactiveForSelector lp sel).length ≤ 10 := by
  unfold interactiveForSelector
  cases lp.queryOk sel
  · simp
  · simp only [if_true]
    refine le_trans (List.length_filterMap_le _ _) ?_
    rw [List.length_take]
    exact Nat.min_le_left _ _

/-! ## Claim C5 -/

/-- Claim C5: every context returned by a successful capture respects
all collection caps — at most 100 elements, 20 buttons, 30 links and 30
interactive entries — and each clickable selector contributes at most 10
interactive entries before the total cap. -/
theorem capture_collection_caps (env : CaptureEnv) (opts : CaptureOptions)
    (vp : Option (Nat × Nat)) (ctx : FrontendContext)
    (h : (capture_frontend env opts vp).result = .ok ctx) :
    ctx.elements.length ≤ 100 ∧ ctx.buttons.length ≤ 20 ∧
    ctx.links.length ≤ 30 ∧ ctx.interactive.length ≤ 30 ∧
    ∀ sel, (interactiveForSelector env.live sel).length ≤ 10 := by
  unfold capture_frontend at h
  split_ifs at h
  all_goals simp at h
  · subst h
    obtain ⟨f1, f2, f3, f4, f5, f6, f7, f8, f9, f10, f11, f12⟩ :=
      captureBody_fields env opts vp
    refine ⟨?_, ?_, ?_, ?_, fun sel => interactiveForSelector_le env.live sel⟩
    · rw [f2]
      split
      · split
        · exact _extract_dom_elements_le _
        · simp
      · simp
    · rw [f4]
      split
      · split
        · exact _extract_buttons_le _
        · simp
      · simp
    · rw [f5]
      split
      · split
        · exact _extract_links_le _
        · simp
      · simp
    · rw [f7]
      split
      · split
        · exact _extract_interactive_elements_le _
        · simp
      · simp

/-- Witness for C5 at a default capture of an empty environment. -/
theorem capture_collection_caps_witness :
    (captureBody {} {} none).elements.length ≤ 100 ∧
    (captureBody {} {} none).buttons.length ≤ 20 ∧
    (captureBody {} {} none).links.length ≤ 30 ∧
    (captureBody {} {} none).interactive.length ≤ 30 :=
  have h := capture_collection_caps {} {} none (captureBody {} {} none) rfl
  ⟨h.1, h.2.1, h.2.2.1, h.2.2.2.1⟩

/-! ## Claim C2 -/

/-- Claim C2 (counterexample): with navigation succeeding and the
performance stage enabled, a failing performance probe does not leave
`performance` at its default empty value (`None`): the capture still
succeeds but the field is set to a fallback metrics record carrying the
wall-clock load time. -/
theorem capture_stage_failure_default_counterexample :
    (capture_frontend { loadTime := 3 } {} none).result =
      .ok (captureBody { loadTime := 3 } {} none) ∧
    (captureBody { loadTime := 3 } {} none).performance =
      some { load_time := 3, errors := [], warnings := [] } ∧
    ¬ ((captureBody { loadTime := 3 } {} none).performance = none) := by
  refine ⟨rfl, by decide, by decide⟩

/-- Claim C2 (amended): once navigation (and the basic page-info reads)
succeed, `capture_frontend` returns a context no matter which enabled
stages fail; each stage failure is absorbed and sets its field to a
stage-specific fallback rather than the default empty value — `""` for
the screenshot, a metrics record carrying only the load time for
performance, `{issues: [], score: 0}` for accessibility — while a DOM
stage failure does leave the DOM collections at their empty defaults,
and the interaction summary is always populated. -/
theorem capture_stage_failure_absorbed (env : CaptureEnv)
    (opts : CaptureOptions) (vp : Option (Nat × Nat))
    (h1 : env.newPageOk = true) (h2 : vp.isSome = true → env.setViewportOk = true)
    (h3 : env.navOk = true) (h4 : env.basicInfoOk = true) :
    (capture_frontend env opts vp).result = .ok (captureBody env opts vp) ∧
    (opts.screenshot = true → env.screenshotData = none →
      (captureBody env opts vp).screenshot = some "") ∧
    (opts.performance = true → env.perf = none →
      (captureBody env opts vp).performance =
        some { load_time := env.loadTime, errors := [], warnings := [] }) ∧
    (opts.accessibility = true → env.a11y = none →
      (captureBody env opts vp).accessibility =
        some { issues := [], score := 0 }) ∧
    (opts.dom_analysis = true → env.soup = none →
      (captureBody env opts vp).elements = [] ∧
      (captureBody env opts vp).forms = [] ∧
      (captureBody env opts vp).buttons = [] ∧
      (captureBody env opts vp).links = [] ∧
      (captureBody env opts vp).inputs = [] ∧
      (captureBody env opts vp).interactive = [] ∧
      (captureBody env opts vp).raw_html = none) ∧
    (captureBody env opts vp).interactions.isSome = true := by
  obtain ⟨f1, f2, f3, f4, f5, f6, f7, f8, f9, f10, f11, f12⟩ :=
    captureBody_fields env opts vp
  have hcond : (vp.isSome && !env.setViewportOk) = false := by
    cases hv : vp with
    | none => rfl
    | some v =>
      rw [h2 (by rw [hv]; rfl)]
      simp
  refine ⟨?_, ?_, ?_, ?_, ?_, f12⟩
  · unfold capture_frontend
    rw [h1, h3, h4, hcond]
    rfl
  · intro ho hnone
    rw [f1, ho, if_pos rfl]
    simp [_capture_screenshot, hnone]
  · intro ho hnone
    rw [f9, ho, if_pos rfl, hnone]
    rfl
  · intro ho hnone
    rw [f10, ho, if_pos rfl, hnone]
    rfl
  · intro ho hnone
    rw [f2, f3, f4, f5, f6, f7, f8, ho, hnone]
    simp


/-- Witness for the amended C2 theorem at a default environment in which
every stage's browser call fails but navigation succeeds. -/
theorem capture_stage_failure_absorbed_witness :
    (capture_frontend {} {} none).result = .ok (captureBody {} {} none) ∧
    (captureBody {} {} none).performance =
      some { load_time := 0, errors := [], warnings := [] } ∧
    (captureBody {} {} none).accessibility =
      some { issues := [], score := 0 } :=
  have h := capture_stage_failure_absorbed {} {} none rfl (fun _ => rfl) rfl rfl
  ⟨h.1, h.2.2.1 rfl rfl, h.2.2.2.1 rfl rfl⟩

/-! ## Claim C3 -/

/-- Claim C3 (code bug): in `capture_frontend` the conditional
`set_viewport_size` call runs after `new_page()` but before the
`try`/`finally`, so when a viewport is requested and that call raises,
the freshly opened page is never closed — while `interact_with_page`,
whose `try` starts immediately after `new_page()`, closes its page on
the same kind of path. -/
theorem capture_viewport_failure_page_leak :
    (capture_frontend { setViewportOk := false } {} (some (800, 600))).opened
      = true ∧
    (capture_frontend { setViewportOk := false } {} (some (800, 600))).closed
      = false ∧
    (interact_with_page_fate { op := fun _ => some "boom" } "http://a"
      [{ type := "click" }]).closed = true ∧
    (interact_with_page_fate { navOk := false } "http://a"
      [{ type := "click" }]).closed = true := by
  refine ⟨rfl, rfl, rfl, rfl⟩

end ContextBridge
